import Mathlib

/-!
Verification of the flag business rules of django-flag (`flag/models.py`).

The embedding models one flaggable object (one aggregate): the claims all
quantify per aggregate, and aggregates for distinct (content_type, object_id)
pairs are independent rows.  Users are identified by `Nat` ids, module-level
limit settings (`LIMIT_FOR_OBJECT`, `LIMIT_SAME_OBJECT_FOR_USER`) become a
`Config` record where `0` plays the role of a falsy (unset) Python value.
Django exceptions become an explicit `Except` error value.
-/

namespace Flag

/-- The two limit settings imported by `flag/models.py` from `flag.settings`:
`limitForObject` is `LIMIT_FOR_OBJECT` and `limitSameObjectForUser` is
`LIMIT_SAME_OBJECT_FOR_USER`.  A Python falsy value (`0` / `None`, meaning
"no limit") is modelled as `0`. -/
structure Config where
  limitForObject : Nat
  limitSameObjectForUser : Nat
deriving Repr, DecidableEq

/-- The exception kinds raised by `flag/models.py`:
`ContentFlaggedEnoughException`, `ContentAlreadyFlaggedByUserException`
(whose message carries the user's flag count, line 123-130), and the
comment-policy error `FlagCommentException` referenced by the test suite. -/
inductive FlagError where
  | contentFlaggedEnough : FlagError
  | contentAlreadyFlaggedByUser : Nat → FlagError
  | flagComment : FlagError
deriving Repr, DecidableEq

/-- The `FlaggedContent` aggregate row (models.py lines 61-76), restricted to
the fields the claims touch.  `count` has Django default `1`, `status` has
default `"1"`. -/
structure FlaggedContent where
  creator : Option Nat
  status : String
  moderator : Option Nat
  count : Nat
deriving Repr, DecidableEq

/-- A `FlagInstance` event row (models.py lines 136-142): the flagging user,
the optional comment and the optional retraction timestamp `when_recalled`
(`none` while not retracted).  `when_added` is irrelevant to every claim and
omitted. -/
structure FlagInstance where
  user : Nat
  comment : Option String
  whenRecalled : Option Nat
deriving Repr, DecidableEq

/-- Database state for one flaggable object: the aggregate row, if any
(`unique_together` allows at most one), and its `flaginstance_set` in
creation order.  Rows are never deleted by any modelled operation, so
`instances.length` is the number of event rows ever created. -/
structure DB where
  flagged : Option FlaggedContent
  instances : List FlagInstance
deriving Repr, DecidableEq

/-- The state before any flag activity: no aggregate, no events. -/
def emptyDB : DB := { flagged := none, instances := [] }

/-- `FlaggedContent.count_flags_by_user` (models.py line 78):
`self.flaginstance_set.filter(user=user).count()` — it filters on the user
only, not on `when_recalled`. -/
def count_flags_by_user (instances : List FlagInstance) (user : Nat) : Nat :=
  (instances.filter (fun fi => fi.user == user)).length

/-- `FlaggedContent.can_be_flagged` (models.py line 85):
`if not LIMIT_FOR_OBJECT: return True` then `return self.count < LIMIT_FOR_OBJECT`. -/
def can_be_flagged (cfg : Config) (fc : FlaggedContent) : Bool :=
  if cfg.limitForObject == 0 then true
  else decide (fc.count < cfg.limitForObject)

/-- `FlaggedContent.assert_can_be_flagged` (models.py line 93): raises
`ContentFlaggedEnoughException` when `can_be_flagged` is false, else returns
`True`. -/
def assert_can_be_flagged (cfg : Config) (fc : FlaggedContent) :
    Except FlagError Bool :=
  if can_be_flagged cfg fc then Except.ok true
  else Except.error FlagError.contentFlaggedEnough

/-- `FlaggedContent.can_be_flagged_by_user` (models.py line 101):
`if not LIMIT_SAME_OBJECT_FOR_USER: return True`, then
`if not self.can_be_flagged(): return False`, then
`return self.count_flags_by_user(user) < LIMIT_SAME_OBJECT_FOR_USER`. -/
def can_be_flagged_by_user (cfg : Config) (fc : FlaggedContent)
    (instances : List FlagInstance) (user : Nat) : Bool :=
  if cfg.limitSameObjectForUser == 0 then true
  else if !(can_be_flagged cfg fc) then false
  else decide (count_flags_by_user instances user < cfg.limitSameObjectForUser)

/-- `FlaggedContent.assert_can_be_flagged_by_user` (models.py line 111):
re-raises the error of `assert_can_be_flagged`, otherwise computes
`count = self.count_flags_by_user(user)` and raises
`ContentAlreadyFlaggedByUserException` when
`count >= LIMIT_SAME_OBJECT_FOR_USER` — note the source has no falsy guard
on `LIMIT_SAME_OBJECT_FOR_USER` in this method. -/
def assert_can_be_flagged_by_user (cfg : Config) (fc : FlaggedContent)
    (instances : List FlagInstance) (user : Nat) : Except FlagError Bool :=
  match assert_can_be_flagged cfg fc with
  | Except.error e => Except.error e
  | Except.ok _ =>
    let count := count_flags_by_user instances user
    if count ≥ cfg.limitSameObjectForUser then
      Except.error (FlagError.contentAlreadyFlaggedByUser count)
    else Except.ok true

/-- `add_flag` (models.py line 145).  Step for step:
`get_or_create` resolves the aggregate, creating it with
`defaults = dict(creator=content_creator)` plus the `status` argument when
given (field defaults: `status="1"`, `count=1`); then
`assert_can_be_flagged_by_user(flagger)` may raise — after the creation, so
a freshly created aggregate stays in the database even on error; on success,
when the aggregate pre-existed its `count` is incremented (the atomic
`F("count") + 1` then re-fetch), and a `FlagInstance` row is saved.
The function returns the post-call database state together with either the
raised error or the new `FlagInstance`.  The unconditional
`signals.content_flagged.send` on success (lines 174-178) is an external
effect with no bearing on the stored state and is not represented here. -/
def add_flag (cfg : Config) (db : DB) (flagger : Nat)
    (content_creator : Option Nat) (comment : Option String)
    (status : Option String) : DB × Except FlagError FlagInstance :=
  let resolved : FlaggedContent × Bool :=
    match db.flagged with
    | some fc => (fc, false)
    | none =>
      ({ creator := content_creator
         status := status.getD "1"
         moderator := none
         count := 1 }, true)
  let fc := resolved.1
  let created := resolved.2
  let db1 : DB := { db with flagged := some fc }
  match assert_can_be_flagged_by_user cfg fc db1.instances flagger with
  | Except.error e => (db1, Except.error e)
  | Except.ok _ =>
    let fc2 := if created then fc else { fc with count := fc.count + 1 }
    let fi : FlagInstance := { user := flagger, comment := comment, whenRecalled := none }
    ({ flagged := some fc2, instances := db1.instances ++ [fi] }, Except.ok fi)

/-- Retraction of the event at position `idx`: set its `when_recalled`
timestamp.  No modelled operation ever clears it, decrements the aggregate
`count`, or deletes the row. -/
def recallAt : List FlagInstance → Nat → Nat → List FlagInstance
  | [], _, _ => []
  | fi :: rest, 0, t => { fi with whenRecalled := some t } :: rest
  | fi :: rest, Nat.succ n, t => fi :: recallAt rest n t

/-- One operation against the aggregate: a call of `add_flag`, or the
retraction of the event at a position. -/
inductive Op where
  | addFlag : Nat → Option Nat → Option String → Option String → Op
  | recallFlag : Nat → Nat → Op
deriving Repr, DecidableEq

/-- Apply a retraction to the database state. -/
def applyRecall (db : DB) (idx time : Nat) : DB :=
  { db with instances := recallAt db.instances idx time }

/-- Run a sequence of operations, keeping the post-call state of every
`add_flag` call whether it raised or not (a raised Django exception does not
undo the `get_or_create` that already hit the database). -/
def run (cfg : Config) : List Op → DB → DB
  | [], db => db
  | Op.addFlag f c cm s :: rest, db => run cfg rest (add_flag cfg db f c cm s).1
  | Op.recallFlag i t :: rest, db => run cfg rest (applyRecall db i t)

/-- Run a sequence of operations, requiring every `add_flag` call to
succeed: the result is `none` as soon as one call raises. -/
def runOk (cfg : Config) : List Op → DB → Option DB
  | [], db => some db
  | Op.addFlag f c cm s :: rest, db =>
    match add_flag cfg db f c cm s with
    | (db2, Except.ok _) => runOk cfg rest db2
    | (_, Except.error _) => none
  | Op.recallFlag i t :: rest, db => runOk cfg rest (applyRecall db i t)

/-- The aggregate's stored `count`, read as `0` when no aggregate row
exists. -/
def aggCount (db : DB) : Nat :=
  match db.flagged with
  | some fc => fc.count
  | none => 0

/-!
The test suite (`flag/tests/tests.py`) exercises a manager method
`FlagInstance.objects.add(user, content_object, comment=None, status=None,
send_signal=False)` — the current flag-recording operation, of which
`add_flag` is kept only for compatibility (tests.py line 910).  Its body, the
`ALLOW_COMMENTS` setting and the signal opt-in live in repository files that
are not under `src/`; they are modelled below from the specification.
-/

/-- Modelled from the spec: the comment-policy configuration — "whether
comments are required, optional, or forbidden (default: optional/allowed)".
The concrete `ALLOW_COMMENTS` setting is absent from `src/`. -/
inductive CommentPolicy where
  | required : CommentPolicy
  | optional : CommentPolicy
  | forbidden : CommentPolicy
deriving Repr, DecidableEq

/-- Modelled from the spec: the one outbound "content flagged" notification
event, "carrying the aggregate and the new event record". -/
structure Signal where
  flagged_content : FlaggedContent
  flagged_instance : FlagInstance
deriving Repr, DecidableEq

/-- Result of the modelled recording operation: the post-call database
state, the returned event record or the raised error, and the list of
notification events emitted by the call. -/
structure AddOutcome where
  db : DB
  result : Except FlagError FlagInstance
  signals : List Signal
deriving Repr

/-- A comment that counts as "empty/absent" for the comment policy. -/
def commentEmpty : Option String → Bool
  | none => true
  | some s => s.isEmpty

/-- Modelled from the spec: step 1 of the recording operation — "resolve or
create the aggregate for the target object; creation sets default status and
optional content-creator reference".  A fresh aggregate starts at count `0`;
step 4 increments on every recorded flag. -/
def spec_resolve (db : DB) (content_creator : Option Nat)
    (status : Option String) : FlaggedContent :=
  match db.flagged with
  | some fc => fc
  | none =>
    { creator := content_creator
      status := status.getD "1"
      moderator := none
      count := 0 }

/-- Modelled from the spec: step 2, the flag-limit policy — the object-level
limit is checked first ("if a configured maximum total flags per object is
set (0/absent = unlimited) and `aggregate.count >= limit`, flagging is
refused"), then the user-level limit, whose error message carries the user's
count. -/
def spec_limit_error (cfg : Config) (fc : FlaggedContent)
    (userCount : Nat) : Option FlagError :=
  if cfg.limitForObject ≠ 0 ∧ fc.count ≥ cfg.limitForObject then
    some FlagError.contentFlaggedEnough
  else if cfg.limitSameObjectForUser ≠ 0 ∧ userCount ≥ cfg.limitSameObjectForUser then
    some (FlagError.contentAlreadyFlaggedByUser userCount)
  else none

/-- Modelled from the spec: step 3, the comment policy — "if comments are
configured as required, an empty/absent comment is rejected …; if comments
are configured as disallowed, a non-empty comment is rejected the same
way". -/
def spec_comment_ok (policy : CommentPolicy) (comment : Option String) : Bool :=
  match policy with
  | CommentPolicy.required => !(commentEmpty comment)
  | CommentPolicy.optional => true
  | CommentPolicy.forbidden => commentEmpty comment

/-- Modelled from the spec: the manager flag-recording operation
`add(user, content_object, comment=None, status=None, send_signal=False)`
(its body is not under `src/`), following §4.2 step for step: resolve or
create the aggregate; evaluate the flag-limit policy and "abort with the
corresponding error on violation, performing no mutation"; validate the
comment policy; increment the aggregate count; create the event record; and
"optionally emit a notification event carrying the aggregate and the new
event record; emission is opt-in per call (default: silent)". -/
def spec_add (cfg : Config) (policy : CommentPolicy) (sendSignal : Bool)
    (db : DB) (flagger : Nat) (content_creator : Option Nat)
    (comment : Option String) (status : Option String) : AddOutcome :=
  let fc := spec_resolve db content_creator status
  match spec_limit_error cfg fc (count_flags_by_user db.instances flagger) with
  | some e => { db := db, result := Except.error e, signals := [] }
  | none =>
    if spec_comment_ok policy comment then
      let fc2 := { fc with count := fc.count + 1 }
      let fi : FlagInstance := { user := flagger, comment := comment, whenRecalled := none }
      let db2 : DB := { flagged := some fc2, instances := db.instances ++ [fi] }
      { db := db2
        result := Except.ok fi
        signals :=
          if sendSignal then [{ flagged_content := fc2, flagged_instance := fi }] else [] }
    else { db := db, result := Except.error FlagError.flagComment, signals := [] }

/-! Helper lemmas shared by several claim proofs. -/

/-- Retracting the event at any position leaves `count_flags_by_user`
unchanged: `recallAt` touches only `when_recalled`, and the filter is on the
user alone. -/
theorem count_flags_by_user_recallAt (instances : List FlagInstance)
    (idx t user : Nat) :
    count_flags_by_user (recallAt instances idx t) user
      = count_flags_by_user instances user := by
  induction instances generalizing idx with
  | nil => rfl
  | cons fi rest ih =>
    cases idx with
    | zero =>
      show count_flags_by_user ({ fi with whenRecalled := some t } :: rest) user = _
      cases h : fi.user == user <;>
        simp [count_flags_by_user, List.filter_cons, h]
    | succ n =>
      show count_flags_by_user (fi :: recallAt rest n t) user = _
      cases h : fi.user == user <;>
        simp [count_flags_by_user, List.filter_cons, h] <;>
        simpa [count_flags_by_user] using ih n

/-- `recallAt` preserves the length of the event list. -/
theorem recallAt_length (instances : List FlagInstance) (idx t : Nat) :
    (recallAt instances idx t).length = instances.length := by
  induction instances generalizing idx with
  | nil => rfl
  | cons fi rest ih =>
    cases idx with
    | zero => rfl
    | succ n => simp [recallAt, ih n]

/-! Claims C1, C2, C3, C9 and C10: the limit policy. -/

/-- Claim C1: for every aggregate and every configured object-level limit
`L > 0`, `can_be_flagged` returns false iff the aggregate's `count ≥ L`;
when the limit is `0` (the falsy "unset" value), `can_be_flagged` returns
true regardless of the count. -/
theorem can_be_flagged_limit (cfg : Config) (fc : FlaggedContent) :
    (0 < cfg.limitForObject →
      (can_be_flagged cfg fc = false ↔ cfg.limitForObject ≤ fc.count)) ∧
    (cfg.limitForObject = 0 → can_be_flagged cfg fc = true) := by
  constructor
  · intro hpos
    simp [can_be_flagged, hpos.ne', Nat.not_lt]
  · intro h0
    simp [can_be_flagged, h0]

/-- Witness for C1: with limit `2` and count `3` flagging is refused; with
limit `0` and the same count it is allowed. -/
theorem can_be_flagged_limit_witness :
    can_be_flagged ⟨2, 0⟩ ⟨none, "1", none, 3⟩ = false ∧
    can_be_flagged ⟨0, 0⟩ ⟨none, "1", none, 3⟩ = true :=
  ⟨((can_be_flagged_limit ⟨2, 0⟩ ⟨none, "1", none, 3⟩).1 (by decide)).2 (by decide),
   (can_be_flagged_limit ⟨0, 0⟩ ⟨none, "1", none, 3⟩).2 rfl⟩

/-- C2 fails as stated: with user-level limit `U = 5 > 0` but object-level
limit `1` already reached (count `1`), `can_be_flagged_by_user` returns
false although the user's prior flag-event count `0` is strictly below `U` —
the method forwards the object-level check (models.py line 107), so "false
iff the user's count ≥ U" does not hold. -/
theorem can_be_flagged_by_user_not_user_iff :
    can_be_flagged_by_user ⟨1, 5⟩ ⟨none, "1", none, 1⟩ [] 7 = false ∧
    count_flags_by_user [] 7 < 5 :=
  ⟨rfl, by decide⟩

/-- Claim C2 amended: for every configured user-level limit `U > 0`,
`can_be_flagged_by_user` returns false iff the user's prior flag-event count
is `≥ U` or the object-level check `can_be_flagged` fails. -/
theorem can_be_flagged_by_user_iff (cfg : Config) (fc : FlaggedContent)
    (instances : List FlagInstance) (user : Nat)
    (hpos : 0 < cfg.limitSameObjectForUser) :
    can_be_flagged_by_user cfg fc instances user = false ↔
      (cfg.limitSameObjectForUser ≤ count_flags_by_user instances user ∨
        can_be_flagged cfg fc = false) := by
  unfold can_be_flagged_by_user
  rw [if_neg (by simp [hpos.ne'])]
  cases h : can_be_flagged cfg fc with
  | false => simp [h]
  | true => simp [h, Nat.not_lt]

/-- Witness for C2 (amended): user `4` already has `2` flag events and the
user-level limit is `2`, so flagging is refused. -/
theorem can_be_flagged_by_user_iff_witness :
    can_be_flagged_by_user ⟨0, 2⟩ ⟨none, "1", none, 2⟩
      [⟨4, none, none⟩, ⟨4, none, none⟩] 4 = false :=
  (can_be_flagged_by_user_iff ⟨0, 2⟩ ⟨none, "1", none, 2⟩
      [⟨4, none, none⟩, ⟨4, none, none⟩] 4 (by decide)).2
    (Or.inl (by decide))

/-- Claim C3: when both the object-level and the user-level limit are
violated, `assert_can_be_flagged_by_user` raises the object-level error
`ContentFlaggedEnoughException` (models.py lines 115-118 re-raise it before
the user-level count is examined). -/
theorem assert_object_error_precedence (cfg : Config) (fc : FlaggedContent)
    (instances : List FlagInstance) (user : Nat)
    (hL : 0 < cfg.limitForObject) (hcount : cfg.limitForObject ≤ fc.count)
    (_hU : 0 < cfg.limitSameObjectForUser)
    (_huser : cfg.limitSameObjectForUser ≤ count_flags_by_user instances user) :
    assert_can_be_flagged_by_user cfg fc instances user =
      Except.error FlagError.contentFlaggedEnough := by
  have hcb : can_be_flagged cfg fc = false := by
    simp [can_be_flagged, hL.ne', Nat.not_lt, hcount]
  unfold assert_can_be_flagged_by_user assert_can_be_flagged
  rw [hcb]
  simp

/-- Witness for C3: both limits are `1` and both counts are `1`; the raised
error is the object-level one. -/
theorem assert_object_error_precedence_witness :
    assert_can_be_flagged_by_user ⟨1, 1⟩ ⟨none, "1", none, 1⟩ [⟨4, none, none⟩] 4 =
      Except.error FlagError.contentFlaggedEnough :=
  assert_object_error_precedence ⟨1, 1⟩ ⟨none, "1", none, 1⟩ [⟨4, none, none⟩] 4
    (by decide) (by decide) (by decide) (by decide)

/-- C9 failing input, evaluated on the code: with no user-level limit
configured (`LIMIT_SAME_OBJECT_FOR_USER = 0`, the default "unlimited"), the
boolean predicate returns true, yet the assertive variant raises
`ContentAlreadyFlaggedByUserException` because models.py line 122 compares
`count >= LIMIT_SAME_OBJECT_FOR_USER` without the falsy guard the predicate
has (line 105), and `0 >= 0` holds.  The repository's own test
(tests.py lines 352-354) expects no raise on exactly this configuration. -/
theorem assert_diverges_from_predicate_at_limit_zero :
    can_be_flagged_by_user ⟨0, 0⟩ ⟨none, "1", none, 1⟩ [] 4 = true ∧
    assert_can_be_flagged_by_user ⟨0, 0⟩ ⟨none, "1", none, 1⟩ [] 4 =
      Except.error (FlagError.contentAlreadyFlaggedByUser 0) :=
  ⟨rfl, rfl⟩

/-- Claim C10: `count_flags_by_user` counts all of the user's flag events
including retracted ones — retracting any event leaves the count unchanged,
an event whose `when_recalled` is set still contributes when its user
matches, and therefore the user-level check `can_be_flagged_by_user` is
unchanged by retraction. -/
theorem count_flags_by_user_includes_recalled (cfg : Config)
    (fc : FlaggedContent) (instances : List FlagInstance)
    (user idx t : Nat) (c : Option String) :
    count_flags_by_user (recallAt instances idx t) user
        = count_flags_by_user instances user ∧
    count_flags_by_user (instances ++ [⟨user, c, some t⟩]) user
        = count_flags_by_user instances user + 1 ∧
    can_be_flagged_by_user cfg fc (recallAt instances idx t) user
        = can_be_flagged_by_user cfg fc instances user := by
  refine ⟨count_flags_by_user_recallAt instances idx t user, ?_, ?_⟩
  · simp [count_flags_by_user, List.filter_append, List.filter_cons]
  · unfold can_be_flagged_by_user
    rw [count_flags_by_user_recallAt]

/-! Claims C4, C7 and C8: the recording operation `add_flag`. -/

/-- A successful `add_flag` call increments the stored count by one exactly
(`1` over the absent aggregate's `0` at creation, the atomic `F("count")+1`
otherwise) and appends exactly the returned event record. -/
theorem add_flag_ok_step (cfg : Config) (db : DB) (flagger : Nat)
    (content_creator : Option Nat) (comment : Option String)
    (status : Option String) (db2 : DB) (fi : FlagInstance)
    (h : add_flag cfg db flagger content_creator comment status = (db2, Except.ok fi)) :
    aggCount db2 = aggCount db + 1 ∧ db2.instances = db.instances ++ [fi] := by
  unfold add_flag at h
  cases hdb : db.flagged with
  | none =>
    simp only [hdb] at h
    cases hass : assert_can_be_flagged_by_user cfg
        ⟨content_creator, status.getD "1", none, 1⟩ db.instances flagger with
    | error e => simp [hass] at h
    | ok b =>
      simp only [hass] at h
      rw [Prod.mk.injEq] at h
      obtain ⟨h1, h2⟩ := h
      rw [Except.ok.injEq] at h2
      subst h1
      subst h2
      simp [aggCount, hdb]
  | some fc =>
    simp only [hdb] at h
    cases hass : assert_can_be_flagged_by_user cfg fc db.instances flagger with
    | error e => simp [hass] at h
    | ok b =>
      simp only [hass] at h
      rw [Prod.mk.injEq] at h
      obtain ⟨h1, h2⟩ := h
      rw [Except.ok.injEq] at h2
      subst h1
      subst h2
      simp [aggCount, hdb]

/-- C4 fails as stated: with object-level limit `1` and no pre-existing
aggregate, `add_flag` runs `get_or_create` first — storing a fresh aggregate
with the default count `1` — and only then the limit check, which raises
`ContentFlaggedEnoughException`; the aborted call has created an
aggregate. -/
theorem add_flag_error_creates_aggregate :
    (add_flag ⟨1, 10⟩ emptyDB 4 none none none).2 =
      Except.error FlagError.contentFlaggedEnough ∧
    (add_flag ⟨1, 10⟩ emptyDB 4 none none none).1.flagged =
      some ⟨none, "1", none, 1⟩ :=
  ⟨rfl, rfl⟩

/-- Claim C4 amended: an `add_flag` call that aborts with a limit error
creates no flag-event record and leaves an already-existing aggregate
unchanged; only when no aggregate existed has the aborted call already
created one (with the default count `1`) before the check. -/
theorem add_flag_error_no_mutation (cfg : Config) (db : DB) (flagger : Nat)
    (content_creator : Option Nat) (comment : Option String)
    (status : Option String) (e : FlagError)
    (h : (add_flag cfg db flagger content_creator comment status).2 = Except.error e) :
    (add_flag cfg db flagger content_creator comment status).1.instances
        = db.instances ∧
    ∀ fc, db.flagged = some fc →
      (add_flag cfg db flagger content_creator comment status).1.flagged = some fc := by
  unfold add_flag at h ⊢
  cases hdb : db.flagged with
  | none =>
    simp only [hdb] at h ⊢
    cases hass : assert_can_be_flagged_by_user cfg
        ⟨content_creator, status.getD "1", none, 1⟩ db.instances flagger with
    | error e' => simp [hass]
    | ok b => simp [hass] at h
  | some fc =>
    simp only [hdb] at h ⊢
    cases hass : assert_can_be_flagged_by_user cfg fc db.instances flagger with
    | error e' =>
      constructor
      · simp [hass]
      · intro fc0 hfc0
        rw [Option.some.injEq] at hfc0
        subst hfc0
        simp [hass]
    | ok b => simp [hass] at h

/-- Witness for C4 (amended): the aggregate (count `5`) exists, the limit
`1` is exceeded, and the aborted call changes neither the event list nor the
aggregate row. -/
theorem add_flag_error_no_mutation_witness :
    (add_flag ⟨1, 10⟩ ⟨some ⟨none, "1", none, 5⟩, [⟨2, none, none⟩]⟩
        4 none none none).1.instances = [⟨2, none, none⟩] ∧
    (add_flag ⟨1, 10⟩ ⟨some ⟨none, "1", none, 5⟩, [⟨2, none, none⟩]⟩
        4 none none none).1.flagged = some ⟨none, "1", none, 5⟩ := by
  have h := add_flag_error_no_mutation ⟨1, 10⟩
    ⟨some ⟨none, "1", none, 5⟩, [⟨2, none, none⟩]⟩ 4 none none none
    FlagError.contentFlaggedEnough rfl
  exact ⟨h.1, h.2 ⟨none, "1", none, 5⟩ rfl⟩

/-- Claim C7: when the aggregate already exists, `add_flag` leaves its
`status` and `creator` unchanged, even when a `status` argument is passed —
the `defaults` of `get_or_create` apply only at creation, and a successful
call touches only `count`. -/
theorem add_flag_preserves_status_creator (cfg : Config) (db : DB)
    (fc fc' : FlaggedContent) (flagger : Nat) (content_creator : Option Nat)
    (comment : Option String) (status : Option String)
    (hdb : db.flagged = some fc)
    (h : (add_flag cfg db flagger content_creator comment status).1.flagged
        = some fc') :
    fc'.status = fc.status ∧ fc'.creator = fc.creator := by
  unfold add_flag at h
  simp only [hdb] at h
  cases hass : assert_can_be_flagged_by_user cfg fc db.instances flagger with
  | error e =>
    simp only [hass] at h
    rw [Option.some.injEq] at h
    rw [← h]
    exact ⟨rfl, rfl⟩
  | ok b =>
    simp only [hass] at h
    rw [Option.some.injEq] at h
    rw [← h]
    exact ⟨rfl, rfl⟩

/-- Witness for C7: re-flagging an aggregate with status `"2"` and creator
`9`, passing the status argument `"5"`, yields an aggregate with the same
status and creator. -/
theorem add_flag_preserves_status_creator_witness :
    (⟨some 9, "2", none, 3⟩ : FlaggedContent).status
        = (⟨some 9, "2", none, 2⟩ : FlaggedContent).status ∧
    (⟨some 9, "2", none, 3⟩ : FlaggedContent).creator
        = (⟨some 9, "2", none, 2⟩ : FlaggedContent).creator :=
  add_flag_preserves_status_creator ⟨0, 10⟩
    ⟨some ⟨some 9, "2", none, 2⟩, []⟩ ⟨some 9, "2", none, 2⟩ ⟨some 9, "2", none, 3⟩
    4 (some 1) none (some "5") rfl rfl

/-- C8 fails as stated: the one-element sequence made of an `add_flag` call
aborted at aggregate creation (object-level limit `1`) leaves `count = 1`
while zero flag-event records were ever created. -/
theorem count_ne_records_after_aborted_call :
    aggCount (run ⟨1, 10⟩ [Op.addFlag 4 none none none] emptyDB) = 1 ∧
    (run ⟨1, 10⟩ [Op.addFlag 4 none none none] emptyDB).instances.length = 0 :=
  ⟨rfl, rfl⟩

/-- Invariant preservation for successful runs: if the count equals the
number of event records, it still does after any sequence of successful
`add_flag` calls and retractions. -/
theorem runOk_invariant (cfg : Config) (ops : List Op) :
    ∀ db db', aggCount db = db.instances.length →
      runOk cfg ops db = some db' → aggCount db' = db'.instances.length := by
  induction ops with
  | nil =>
    intro db db' hinv h
    simp only [runOk, Option.some.injEq] at h
    subst h
    exact hinv
  | cons op rest ih =>
    intro db db' hinv h
    cases op with
    | addFlag f c cm s =>
      unfold runOk at h
      cases hcall : add_flag cfg db f c cm s with
      | mk db2 r =>
        cases r with
        | error e => rw [hcall] at h; simp at h
        | ok fi =>
          rw [hcall] at h
          obtain ⟨hc, hinst⟩ := add_flag_ok_step cfg db f c cm s db2 fi hcall
          refine ih db2 db' ?_ h
          rw [hc, hinst, List.length_append, hinv]
          rfl
    | recallFlag i t =>
      unfold runOk at h
      refine ih _ db' ?_ h
      show aggCount (applyRecall db i t) = (applyRecall db i t).instances.length
      have h1 : aggCount (applyRecall db i t) = aggCount db := rfl
      rw [h1, hinv]
      exact (recallAt_length db.instances i t).symm

/-- Claim C8 amended: after any sequence of successful `add_flag` calls and
retractions starting from the empty state, the aggregate's `count` equals
the number of flag-event records ever created (no operation deletes a
record, so that number is the event-list length); a retraction never changes
the count, and no `add_flag` call — aborted or not — ever decreases it.  A
call aborted at aggregate creation breaks the equality itself (see the
counterexample). -/
theorem count_equals_event_records (cfg : Config) (ops : List Op) (db' : DB)
    (h : runOk cfg ops emptyDB = some db') :
    aggCount db' = db'.instances.length ∧
    (∀ db idx t, aggCount (applyRecall db idx t) = aggCount db) ∧
    (∀ db f c cm s, aggCount db ≤ aggCount (add_flag cfg db f c cm s).1) := by
  refine ⟨runOk_invariant cfg ops emptyDB db' rfl h, fun db idx t => rfl, ?_⟩
  intro db f c cm s
  unfold add_flag
  cases hdb : db.flagged with
  | none =>
    have h0 : aggCount db = 0 := by simp [aggCount, hdb]
    rw [h0]
    exact Nat.zero_le _
  | some fc =>
    simp only [hdb]
    cases hass : assert_can_be_flagged_by_user cfg fc db.instances f with
    | error e => simp [hass, aggCount, hdb]
    | ok b => simp [hass, aggCount, hdb]

/-- Witness for C8 (amended): a successful flag, a retraction, and a second
successful flag leave `count = 2` with two event rows. -/
theorem count_equals_event_records_witness :
    aggCount { flagged := some ⟨none, "1", none, 2⟩,
               instances := [⟨1, some "c", some 5⟩, ⟨2, none, none⟩] } =
      (List.length [(⟨1, some "c", some 5⟩ : FlagInstance), ⟨2, none, none⟩]) :=
  (count_equals_event_records ⟨0, 10⟩
    [Op.addFlag 1 none (some "c") none, Op.recallFlag 0 5, Op.addFlag 2 none none none]
    { flagged := some ⟨none, "1", none, 2⟩,
      instances := [⟨1, some "c", some 5⟩, ⟨2, none, none⟩] } rfl).1

/-! Claims C5 and C6: comment policy and notification opt-in of the
spec-modelled recording operation. -/

/-- Claim C5 (spec-modelled): when the flag-limit policy permits the call,
the recording operation with comments configured as required rejects an
empty or absent comment with the comment-policy error and leaves the
database — in particular the aggregate's count — unchanged; with comments
configured as disallowed, a non-empty comment is rejected the same way. -/
theorem spec_add_comment_policy (cfg : Config) (db : DB) (flagger : Nat)
    (content_creator : Option Nat) (comment status : Option String)
    (sendSignal : Bool)
    (hlim : spec_limit_error cfg (spec_resolve db content_creator status)
        (count_flags_by_user db.instances flagger) = none) :
    (commentEmpty comment = true →
      (spec_add cfg CommentPolicy.required sendSignal db flagger
          content_creator comment status).result
        = Except.error FlagError.flagComment ∧
      (spec_add cfg CommentPolicy.required sendSignal db flagger
          content_creator comment status).db = db) ∧
    (commentEmpty comment = false →
      (spec_add cfg CommentPolicy.forbidden sendSignal db flagger
          content_creator comment status).result
        = Except.error FlagError.flagComment ∧
      (spec_add cfg CommentPolicy.forbidden sendSignal db flagger
          content_creator comment status).db = db) := by
  constructor
  · intro hc
    simp only [spec_add]
    rw [hlim]
    simp [spec_comment_ok, hc]
  · intro hc
    simp only [spec_add]
    rw [hlim]
    simp [spec_comment_ok, hc]

/-- Witness for C5: with no limits configured, an absent comment under the
required policy and the comment `"hi"` under the forbidden policy are both
rejected, leaving the empty database untouched. -/
theorem spec_add_comment_policy_witness :
    (spec_add ⟨0, 0⟩ CommentPolicy.required false emptyDB 1 none none none).result
        = Except.error FlagError.flagComment ∧
    (spec_add ⟨0, 0⟩ CommentPolicy.required false emptyDB 1 none none none).db
        = emptyDB ∧
    (spec_add ⟨0, 0⟩ CommentPolicy.forbidden false emptyDB 1 none (some "hi") none).result
        = Except.error FlagError.flagComment ∧
    (spec_add ⟨0, 0⟩ CommentPolicy.forbidden false emptyDB 1 none (some "hi") none).db
        = emptyDB := by
  have h1 := spec_add_comment_policy ⟨0, 0⟩ emptyDB 1 none none none false rfl
  have h2 := spec_add_comment_policy ⟨0, 0⟩ emptyDB 1 none (some "hi") none false rfl
  exact ⟨(h1.1 rfl).1, (h1.1 rfl).2, (h2.2 (by decide)).1, (h2.2 (by decide)).2⟩

/-- Claim C6 (spec-modelled): the recording operation emits no notification
when the caller does not opt in (the default), a non-empty emission implies
the caller opted in, and a successful opted-in call emits exactly the one
content-flagged event carrying the aggregate and the new event record. -/
theorem spec_add_signal_opt_in (cfg : Config) (policy : CommentPolicy)
    (db : DB) (flagger : Nat) (content_creator : Option Nat)
    (comment status : Option String) :
    (spec_add cfg policy false db flagger content_creator comment status).signals
        = [] ∧
    (∀ sendSignal : Bool,
      (spec_add cfg policy sendSignal db flagger content_creator
          comment status).signals ≠ [] → sendSignal = true) ∧
    (∀ fi, (spec_add cfg policy true db flagger content_creator
          comment status).result = Except.ok fi →
      ∃ fc, (spec_add cfg policy true db flagger content_creator
            comment status).db.flagged = some fc ∧
        (spec_add cfg policy true db flagger content_creator
            comment status).signals = [⟨fc, fi⟩]) := by
  simp only [spec_add]
  cases hlim : spec_limit_error cfg (spec_resolve db content_creator status)
      (count_flags_by_user db.instances flagger) with
  | some e => simp
  | none =>
    cases hok : spec_comment_ok policy comment with
    | false => simp [hok]
    | true =>
      refine ⟨by simp [hok], fun sendSignal h => ?_, fun fi hfi => ?_⟩
      · cases sendSignal with
        | false => simp [hok] at h
        | true => rfl
      · simp only [hok, if_true] at hfi ⊢
        rw [Except.ok.injEq] at hfi
        subst hfi
        exact ⟨_, rfl, rfl⟩

/-- Witness for C6: a successful call with the comment `"hi"` emits nothing
without opt-in, and with opt-in emits the one event carrying the new
aggregate and event record. -/
theorem spec_add_signal_opt_in_witness :
    (spec_add ⟨0, 0⟩ CommentPolicy.optional false emptyDB 1 none
        (some "hi") none).signals = [] ∧
    ∃ fc, (spec_add ⟨0, 0⟩ CommentPolicy.optional true emptyDB 1 none
          (some "hi") none).db.flagged = some fc ∧
      (spec_add ⟨0, 0⟩ CommentPolicy.optional true emptyDB 1 none
          (some "hi") none).signals = [⟨fc, ⟨1, some "hi", none⟩⟩] := by
  have h := spec_add_signal_opt_in ⟨0, 0⟩ CommentPolicy.optional emptyDB 1 none
    (some "hi") none
  exact ⟨h.1, h.2.2 ⟨1, some "hi", none⟩ rfl⟩

end Flag
